import Mathlib

/-!
# Verification of the NYT article scraper (`nytScraper.py`)

Shallow embedding of the Python 2 program `src/nytScraper.py` together with
proofs about the claims of the specification.

The program is Python 2 (it uses `xrange` and `print` statements), which
matters in one place: `NYTArticleRequest.__init__` stores its query
parameters in a plain `dict` and `__repr__` iterates over `dict.items()`.
CPython 2.7 dictionaries iterate in hash-table slot order, not insertion
order, so we model the CPython 2.7 string hash and open-addressing dict
faithfully (64-bit build, hash randomization off, which is the CPython 2.7
default).
-/

namespace NYTScraper

/-! ## CPython 2.7 string hash (64-bit build)

`string_hash` from CPython 2.7's `stringobject.c`:
`x = s[0] << 7; for c in s: x = (1000003*x) ^ c; x ^= len(s); if x == -1: x = -2`,
computed in a 64-bit machine word. -/

def MASK64 : Nat := 2 ^ 64

def pyHash (s : String) : Nat :=
  match s.data with
  | [] => 0
  | c :: _ =>
    let x0 := (c.toNat <<< 7) % MASK64
    let x := s.data.foldl (fun x c => (1000003 * x % MASK64) ^^^ c.toNat) x0
    let x := x ^^^ s.length
    if x = MASK64 - 1 then MASK64 - 2 else x

/-! ## CPython 2.7 dict (open addressing, table slots)

`lookdict`: the first slot index is `hash & mask`; on collision the probe
counter accumulates unmasked as `i = 5*i + perturb + 1` with
`perturb = hash` shifted right by 5 each step, and the slot used is
`i & mask`.  The table starts with 8 slots; after an insertion of a new key,
if `used*3 >= size*2` the table is resized to the smallest power of two
greater than `4*used`, reinserting the entries in slot order. -/

def PyTable : Type := List (Option (String × String))

structure PyDict where
  size : Nat
  table : PyTable
  used : Nat

/-- One probe sequence step: slot used is `i % size`; `fuel` only guards
termination (the real loop always finds an empty or matching slot because the
table is never full). -/
def probeLoop (table : PyTable) (size : Nat) (key : String) :
    Nat → Nat → Nat → Nat
  | 0, i, _ => i % size
  | fuel + 1, i, perturb =>
    match table.getD (i % size) none with
    | none => i % size
    | some (k, _) =>
      if k = key then i % size
      else probeLoop table size key fuel (5 * i + perturb + 1) (perturb >>> 5)

/-- Smallest power of two (from 8 up) strictly greater than `minused`
(`dictresize`'s size computation). -/
def newSizeLoop (minused : Nat) : Nat → Nat → Nat
  | 0, cur => cur
  | fuel + 1, cur => if cur ≤ minused then newSizeLoop minused fuel (2 * cur) else cur

/-- `dictresize`: rebuild the table at the new size, reinserting the live
entries in old slot order. -/
def dictResize (d : PyDict) (minused : Nat) : PyDict :=
  let ns := newSizeLoop minused 64 8
  let table' := d.table.foldl
    (fun t e =>
      match e with
      | none => t
      | some (k, v) =>
        let h := pyHash k
        t.set (probeLoop t ns k (8 * ns) (h % ns) h) (some (k, v)))
    (List.replicate ns none)
  ⟨ns, table', d.used⟩

/-- `PyDict_SetItem` for string keys (no deletions ever happen in the
program, so fill = used). -/
def PyDict.insert (d : PyDict) (key val : String) : PyDict :=
  let h := pyHash key
  let i := probeLoop d.table d.size key (8 * d.size) (h % d.size) h
  let isNew := (d.table.getD i none).isNone
  let used' := if isNew then d.used + 1 else d.used
  let d' : PyDict := ⟨d.size, d.table.set i (some (key, val)), used'⟩
  if isNew ∧ 2 * d.size ≤ 3 * used' then dictResize d' (4 * used') else d'

def emptyDict : PyDict := ⟨8, List.replicate 8 none, 0⟩

/-- `dict.items()`: live entries in slot order. -/
def PyDict.items (d : PyDict) : List (String × String) :=
  d.table.filterMap id

/-! ## Decimal rendering (Python `str(int)` for non-negative ints, and
strftime's `%Y` which prints the year's decimal digits) -/

/-- Decimal digits of `n`, least significant first; `fuel ≥ n` suffices. -/
def natDigitsAux : Nat → Nat → List Char
  | 0, _ => []
  | fuel + 1, n =>
    if n = 0 then [] else Nat.digitChar (n % 10) :: natDigitsAux fuel (n / 10)

/-- Python `str(n)` for a non-negative int `n`. -/
def pyStr (n : Nat) : String :=
  if n = 0 then "0" else ⟨(natDigitsAux n n).reverse⟩

/-- strftime `%m` / `%d`: two digits, zero padded. -/
def pad2 (n : Nat) : String :=
  if n < 10 then "0" ++ pyStr n else pyStr n

/-- A Python `datetime.date` value (year 1..9999, month 1..12, valid day). -/
structure PyDate where
  year : Nat
  month : Nat
  day : Nat
deriving DecidableEq, Repr

/-- Models Python 2 `date.strftime('%Y%m%d')` (the `NYT_DATE_FORMAT`).
Python 2's `strftime` raises `ValueError` for years before 1900, so every
date that reaches this format has a 4-digit year and `%Y` renders exactly
its decimal digits; theorems about the output carry `1900 ≤ year` as a
hypothesis. -/
def strftimeYYYYMMDD (d : PyDate) : String :=
  pyStr d.year ++ pad2 d.month ++ pad2 d.day

/-! ## `NYTArticleRequest` -/

/-- `NYTArticleRequest.__init__`: fills the `nyt_args` dict.  Required keys
first (`api-key`, `q`, `page` with `str(page)`), then `fl` only when
`fields` is truthy (Python: `if fields:` — `None` and the empty string are
falsy), then `begin_date` / `end_date` formatted `%Y%m%d` when present. -/
def NYTArticleRequest (api_key query : String) (page : Nat)
    (begin_date end_date : Option PyDate) (fields : Option String) : PyDict :=
  let d := (emptyDict.insert "api-key" api_key).insert "q" query
  let d := d.insert "page" (pyStr page)
  let d := match fields with
    | some f => if f = "" then d else d.insert "fl" f
    | none => d
  let d := match begin_date with
    | some bd => d.insert "begin_date" (strftimeYYYYMMDD bd)
    | none => d
  match end_date with
  | some ed => d.insert "end_date" (strftimeYYYYMMDD ed)
  | none => d

def NYT_API_URL : String := "https://api.nytimes.com/svc/search/v2/articlesearch.json"

/-- `NYTArticleRequest.__repr__`: the endpoint, `?`, then the dict items
rendered as `key=value` (via `'='.join`) joined with `&` — with no escaping
or percent-encoding of any kind. -/
def reprRequest (d : PyDict) : String :=
  NYT_API_URL ++ "?" ++ String.intercalate "&" (d.items.map fun kv => kv.1 ++ "=" ++ kv.2)

/-! ## Decoded JSON values (the result of `r.json()`) -/

inductive Json where
  | str : String → Json
  | num : Int → Json
  | bool : Bool → Json
  | null : Json
  | obj : List (String × Json) → Json
  | arr : List Json → Json

/-- Python subscript `j[k]` on a decoded JSON value: `KeyError` when the key
is absent, `TypeError` when `j` is not a dict — both uncaught, hence fatal,
in `parseNYTResponse`. -/
def Json.getField : Json → String → Except String Json
  | .obj kvs, k =>
    match kvs.lookup k with
    | some v => .ok v
    | none => .error ("KeyError: " ++ k)
  | _, k => .error ("TypeError: subscript " ++ k)

/-- Python `content['status'] == 'OK'` (`==` against a non-string is `False`,
not an error). -/
def Json.isOK : Json → Bool
  | .str s => s == "OK"
  | _ => false

/-! ## `datetime.strptime(s, '%Y-%m-%d').date()`

Modelled Python 2 library behavior: `_strptime` matches `%Y` as exactly four
digits, `%m` and `%d` as one or two digits in range (no `00`), the pattern
must consume the whole string, and the resulting triple must be a valid
calendar date (`datetime` raises `ValueError` otherwise). -/

/-- Python `s.split(c)` for a single-character separator, on the character
list (structural, so it evaluates in the kernel). -/
def splitOnChar (c : Char) : List Char → List (List Char)
  | [] => [[]]
  | x :: xs =>
    if x = c then [] :: splitOnChar c xs
    else
      match splitOnChar c xs with
      | [] => [[x]]
      | g :: gs => (x :: g) :: gs

/-- Python `s.split(c)` for a single-character separator (both separators the
program uses, `'T'` and `'-'`, are single characters). -/
def pySplit (c : Char) (s : String) : List String :=
  (splitOnChar c s.data).map String.mk

/-- Decimal value of an all-digit string (what `int()`/`_strptime` produce
for a matched digit group). -/
def pyToNat (s : String) : Nat :=
  s.data.foldl (fun n c => n * 10 + (c.toNat - '0'.toNat)) 0

def allDigits (s : String) : Bool :=
  s.length != 0 && s.data.all Char.isDigit

def isLeapYear (y : Nat) : Bool :=
  y % 4 = 0 && (y % 100 != 0 || y % 400 = 0)

def daysInMonth (y m : Nat) : Nat :=
  if m = 2 then (if isLeapYear y then 29 else 28)
  else if m = 4 ∨ m = 6 ∨ m = 9 ∨ m = 11 then 30
  else 31

def strptimeYMD (s : String) : Except String PyDate :=
  match pySplit '-' s with
  | [ys, ms, ds] =>
    if ys.length = 4 ∧ allDigits ys ∧ allDigits ms ∧ ms.length ≤ 2
        ∧ allDigits ds ∧ ds.length ≤ 2 then
      let y := pyToNat ys
      let m := pyToNat ms
      let d := pyToNat ds
      if 1 ≤ y ∧ 1 ≤ m ∧ m ≤ 12 ∧ 1 ≤ d ∧ d ≤ daysInMonth y m then
        .ok ⟨y, m, d⟩
      else .error ("ValueError: invalid date " ++ s)
    else .error ("ValueError: time data does not match format " ++ s)
  | _ => .error ("ValueError: time data does not match format " ++ s)

/-! ## Article pages and BeautifulSoup scraping -/

/-- An HTML element as far as the scraper looks at it: tag name, the value
of its `class` attribute, and its text content.  A page is its elements in
document order. -/
structure HtmlElem where
  name : String
  classAttr : String
  text : String
deriving DecidableEq

abbrev Html := List HtmlElem

/-- `soup.find_all('p', {'class': 'story-body-text story-content'})`:
BeautifulSoup matches a string filter against a multi-valued `class`
attribute when the whole (space-joined) attribute value equals the string.
`find_all` returns matches in document order. -/
def findStoryPieces (page : Html) : List HtmlElem :=
  page.filter fun e => e.name == "p" && e.classAttr == "story-body-text story-content"

/-- Lines 170–172: `story_body = ""` then `story_body = story_body + piece.text`
over the matched pieces. -/
def scrapeStoryBody (page : Html) : String :=
  (findStoryPieces page).foldl (fun story_body piece => story_body ++ piece.text) ""

/-- One output record of `parseNYTResponse` (the `story` dict).  Python
stores `article['headline']['main']` verbatim, whatever its type, so the
headline stays a `Json` value. -/
structure Story where
  headline : Json
  url : String
  date : PyDate
  content : String

/-! ## `parseNYTResponse`

The article-page HTTP fetch is abstracted by an oracle
`fetch : String → Option Html`: `none` means `requests.get` raised a
`RequestException` (the only exception the code catches — it prints and
`continue`s), `some page` means a decoded HTML document. -/

/-- The per-document loop of `parseNYTResponse` (lines 151–179).  Field
extraction happens before the article fetch; any missing field or malformed
date is an uncaught exception, modelled by `Except.error`. -/
def processDocs (fetch : String → Option Html) :
    List Json → List Story → Except String (List Story)
  | [], stories => .ok stories
  | article :: rest, stories => do
    let hl ← article.getField "headline"
    let headline ← hl.getField "main"
    let webUrlJ ← article.getField "web_url"
    let Json.str web_url := webUrlJ
      | Except.error "TypeError: web_url is not a string"
    let pubJ ← article.getField "pub_date"
    let Json.str pub_datetime_str := pubJ
      | Except.error "AttributeError: pub_date has no split"
    let pub_date ← strptimeYMD ((pySplit 'T' pub_datetime_str).headD "")
    match fetch web_url with
    | none => processDocs fetch rest stories
    | some page =>
      processDocs fetch rest
        (stories ++ [⟨headline, web_url, pub_date, scrapeStoryBody page⟩])

/-- `parseNYTResponse` (lines 135–181): non-`'OK'` status yields `[]` with
no error; otherwise iterate `content['response']['docs']`. -/
def parseNYTResponse (fetch : String → Option Html) (content : Json) :
    Except String (List Story) :=
  match content.getField "status" with
  | .error e => .error e
  | .ok st =>
    if st.isOK then
      match content.getField "response" with
      | .error e => .error e
      | .ok resp =>
        match resp.getField "docs" with
        | .error e => .error e
        | .ok (Json.arr docs) => processDocs fetch docs []
        | .ok _ => .error "TypeError: docs is not iterable"
    else .ok []

/-! ## `issueNYTRequests` (lines 94–133)

Wall-clock time is modelled in ticks of 100 ms — the granularity of the
pacing loop's `sleep(0.1)` — so one second is 10 ticks.  `req_start` is the
time origin, so `time() - req_start` is just the current model time `t` (it
is recorded once, at loop entry, and never reset).  The duration of the body
of iteration `i` (the search fetch plus parsing and per-article scraping) is
an oracle `durs i` in ticks.  The search-API HTTP fetch is an oracle on the
rendered request URL, `none` again meaning a caught `RequestException`
(print and `continue`). -/

def API_MAX_CALLS_PER_DAY : Nat := 100
def API_MAX_CALLS_PER_SEC : Nat := 5

/-- Lines 118–121: `while t_elapse < 1: sleep(0.1)` — poll in 100 ms steps
until at least one second has elapsed since `req_start`.  In ticks the loop
adds 1 until `t` reaches 10, so it ends at exactly 10 when entered below
10 and leaves `t` unchanged otherwise. -/
def pollWait (t : Nat) : Nat :=
  if t < 10 then 10 else t

/-- Result of a run: the page-fetch attempts (page index and the model time
at which `requests.get` was called) and the outcome — `Except.error` when an
uncaught exception escaped `parseNYTResponse`. -/
structure RunResult where
  attempts : List (Nat × Nat)
  result : Except String (List Story)

/-- The `for i in xrange(0, num_pages)` loop, fuel = pages remaining. -/
def runAux (searchFetch : String → Option Json) (articleFetch : String → Option Html)
    (api_key query : String) (begin_date end_date : Option PyDate)
    (fields : Option String) (durs : Nat → Nat) :
    Nat → Nat → Nat → List Story → List (Nat × Nat) → RunResult
  | 0, _, _, all_stories, log => ⟨log, .ok all_stories⟩
  | fuel + 1, i, t, all_stories, log =>
    let cur_request := NYTArticleRequest api_key query i begin_date end_date fields
    let t := if i % API_MAX_CALLS_PER_SEC = 0 ∧ 0 < i then pollWait t else t
    let log := log ++ [(i, t)]
    match searchFetch (reprRequest cur_request) with
    | none =>
      runAux searchFetch articleFetch api_key query begin_date end_date fields durs
        fuel (i + 1) (t + durs i) all_stories log
    | some content =>
      match parseNYTResponse articleFetch content with
      | .error e => ⟨log, .error e⟩
      | .ok page_stories =>
        runAux searchFetch articleFetch api_key query begin_date end_date fields durs
          fuel (i + 1) (t + durs i) (all_stories ++ page_stories) log

/-- `issueNYTRequests`: cap `num_pages` at `API_MAX_CALLS_PER_DAY` silently,
then run the loop from page 0 at time 0. -/
def issueNYTRequests (searchFetch : String → Option Json)
    (articleFetch : String → Option Html) (api_key query : String)
    (num_pages : Nat) (begin_date end_date : Option PyDate)
    (fields : Option String) (durs : Nat → Nat) : RunResult :=
  let np := if num_pages > API_MAX_CALLS_PER_DAY then API_MAX_CALLS_PER_DAY else num_pages
  runAux searchFetch articleFetch api_key query begin_date end_date fields durs
    np 0 0 [] []

/-! ## Auxiliary predicates and concrete test data -/

/-- The domain on which Python 2's `strftime` is defined: `date` years run
1..9999 and Python 2 additionally rejects years before 1900; months and days
are valid calendar components. -/
def validStrftimeDate (d : PyDate) : Prop :=
  1900 ≤ d.year ∧ d.year ≤ 9999 ∧ 1 ≤ d.month ∧ d.month ≤ 12 ∧ 1 ≤ d.day ∧ d.day ≤ 31

instance (d : PyDate) : Decidable (validStrftimeDate d) := by
  unfold validStrftimeDate; infer_instance

/-- A document is missing one of the fields `parseNYTResponse` reads
unguarded: `headline.main`, `web_url`, or `pub_date`. -/
def docMissingNYTField (article : Json) : Bool :=
  !(article.getField "headline" >>= fun hl => hl.getField "main").isOk
    || !(article.getField "web_url").isOk
    || !(article.getField "pub_date").isOk

/-- An `'OK'` search response wrapping the given docs list. -/
def mkOKResponse (docs : List Json) : Json :=
  Json.obj [("status", Json.str "OK"), ("response", Json.obj [("docs", Json.arr docs)])]

/-- A well-formed document with the three expected fields. -/
def mkDoc (headline : Json) (web_url pub_date : String) : Json :=
  Json.obj [("headline", Json.obj [("main", headline)]),
            ("web_url", Json.str web_url), ("pub_date", Json.str pub_date)]

/-- The spec's sample response: one doc, headline.main `"T"`, web_url
`"http://x"`, pub_date `"2020-01-02T10:00:00Z"`. -/
def sampleResponse : Json :=
  mkOKResponse [mkDoc (Json.str "T") "http://x" "2020-01-02T10:00:00Z"]

/-- An article page with two matching story paragraphs (`"Hello "` and
`"world."`) among non-matching elements. -/
def helloHtml : Html :=
  [⟨"p", "story-body-text story-content", "Hello "⟩,
   ⟨"div", "story-body-text story-content", "not a p"⟩,
   ⟨"p", "other-class", "not story text"⟩,
   ⟨"p", "story-body-text story-content", "world."⟩]

/-- An article page with zero matching elements. -/
def noMatchHtml : Html :=
  [⟨"div", "story-body-text story-content", "x"⟩, ⟨"p", "lede", "y"⟩]

/-- One of ten well-formed documents for the end-to-end scenario. -/
def simpleDoc (j : Nat) : Json :=
  mkDoc (Json.str ("H" ++ pyStr j)) ("http://a" ++ pyStr j) "2020-01-02T10:00:00Z"

/-- A page of ten documents. -/
def okTenResponse : Json := mkOKResponse ((List.range 10).map simpleDoc)

/-- The story produced from `simpleDoc j` when its page scrapes to `""`. -/
def simpleStory (j : Nat) : Story :=
  ⟨Json.str ("H" ++ pyStr j), "http://a" ++ pyStr j, ⟨2020, 1, 2⟩, ""⟩

def tenStories : List Story := (List.range 10).map simpleStory

/-- Article-page oracle that fails (transport error) exactly on the fourth
article's URL and returns an empty page otherwise. -/
def fetchFail3 : String → Option Html :=
  fun u => if u = "http://a3" then none else some []

/-! ## Step lemmas: building the `nyt_args` dict

The CPython 2.7 hash slots (table size 8) of the six keys are:
`q` → 0, `fl` → 4, `begin_date` → 4, `api-key` → 5, `end_date` → 6,
`page` → 5 colliding with `api-key` and probing on to 7; `begin_date`
collides with `fl` when `fl` is present and probes on to 1.  Inserting the
sixth key triggers the resize to 32 slots.  Each lemma reduces one insert
on a literal table, which keeps the terms small. -/

theorem ins_api_key (k : String) :
    emptyDict.insert "api-key" k =
      ⟨8, [none, none, none, none, none, some ("api-key", k), none, none], 1⟩ := by
  simp only [PyDict.insert]
  rfl

theorem ins_q (k q : String) :
    (⟨8, [none, none, none, none, none, some ("api-key", k), none, none], 1⟩ :
        PyDict).insert "q" q =
      ⟨8, [some ("q", q), none, none, none, none, some ("api-key", k), none, none], 2⟩ := by
  simp only [PyDict.insert]
  rfl

theorem ins_page (k q pv : String) :
    (⟨8, [some ("q", q), none, none, none, none, some ("api-key", k), none, none], 2⟩ :
        PyDict).insert "page" pv =
      ⟨8, [some ("q", q), none, none, none, none, some ("api-key", k), none,
           some ("page", pv)], 3⟩ := by
  simp only [PyDict.insert]
  rfl

theorem ins_fl (k q pv f : String) :
    (⟨8, [some ("q", q), none, none, none, none, some ("api-key", k), none,
          some ("page", pv)], 3⟩ : PyDict).insert "fl" f =
      ⟨8, [some ("q", q), none, none, none, some ("fl", f), some ("api-key", k), none,
           some ("page", pv)], 4⟩ := by
  simp only [PyDict.insert]
  rfl

theorem ins_begin3 (k q pv b : String) :
    (⟨8, [some ("q", q), none, none, none, none, some ("api-key", k), none,
          some ("page", pv)], 3⟩ : PyDict).insert "begin_date" b =
      ⟨8, [some ("q", q), none, none, none, some ("begin_date", b), some ("api-key", k),
           none, some ("page", pv)], 4⟩ := by
  simp only [PyDict.insert]
  rfl

theorem ins_begin4 (k q pv f b : String) :
    (⟨8, [some ("q", q), none, none, none, some ("fl", f), some ("api-key", k), none,
          some ("page", pv)], 4⟩ : PyDict).insert "begin_date" b =
      ⟨8, [some ("q", q), some ("begin_date", b), none, none, some ("fl", f),
           some ("api-key", k), none, some ("page", pv)], 5⟩ := by
  simp only [PyDict.insert]
  rfl

theorem ins_end3 (k q pv e : String) :
    (⟨8, [some ("q", q), none, none, none, none, some ("api-key", k), none,
          some ("page", pv)], 3⟩ : PyDict).insert "end_date" e =
      ⟨8, [some ("q", q), none, none, none, none, some ("api-key", k),
           some ("end_date", e), some ("page", pv)], 4⟩ := by
  simp only [PyDict.insert]
  rfl

theorem resize_full (k q pv f b e : String) :
    dictResize (⟨8, [some ("q", q), some ("begin_date", b), none, none, some ("fl", f),
          some ("api-key", k), some ("end_date", e), some ("page", pv)], 6⟩ : PyDict) 24 =
      ⟨32, [none, none, none, none, some ("begin_date", b), none, some ("end_date", e),
            none, none, none, none, none, none, some ("api-key", k), none, none,
            some ("q", q), none, none, none, none, none, none, none, none, none,
            none, none, some ("fl", f), some ("page", pv), none, none], 6⟩ := by
  simp only [dictResize]
  rfl

theorem insert_spec_resize (d : PyDict) (key val : String) (i : Nat)
    (hi : probeLoop d.table d.size key (8 * d.size) (pyHash key % d.size) (pyHash key) = i)
    (hnew : (d.table.getD i none).isNone = true)
    (hresize : 2 * d.size ≤ 3 * (d.used + 1)) :
    d.insert key val =
      dictResize ⟨d.size, d.table.set i (some (key, val)), d.used + 1⟩ (4 * (d.used + 1)) := by
  simp only [PyDict.insert, hi, hnew, if_true, and_true, true_and, eq_self_iff_true]
  simp [hresize]

theorem ins_end5 (k q pv f b e : String) :
    (⟨8, [some ("q", q), some ("begin_date", b), none, none, some ("fl", f),
          some ("api-key", k), none, some ("page", pv)], 5⟩ : PyDict).insert "end_date" e =
      ⟨32, [none, none, none, none, some ("begin_date", b), none, some ("end_date", e),
            none, none, none, none, none, none, some ("api-key", k), none, none,
            some ("q", q), none, none, none, none, none, none, none, none, none,
            none, none, some ("fl", f), some ("page", pv), none, none], 6⟩ := by
  have hi : probeLoop [some ("q", q), some ("begin_date", b), none, none, some ("fl", f),
      some ("api-key", k), none, some ("page", pv)] 8 "end_date" (8 * 8)
      (pyHash "end_date" % 8) (pyHash "end_date") = 6 := rfl
  have hnew : (List.getD [some ("q", q), some ("begin_date", b), none, none, some ("fl", f),
      some ("api-key", k), none, some ("page", pv)] 6 none).isNone = true := rfl
  refine (insert_spec_resize ⟨8, [some ("q", q), some ("begin_date", b), none, none,
      some ("fl", f), some ("api-key", k), none, some ("page", pv)], 5⟩
      "end_date" e 6 hi hnew (by norm_num)).trans ?_
  exact resize_full k q pv f b e

/-! ## The `items` of `nyt_args` and the rendered URL, case by case -/

theorem argsNone_items (k q : String) (p : Nat) :
    (NYTArticleRequest k q p none none none).items =
      [("q", q), ("api-key", k), ("page", pyStr p)] := by
  show (((emptyDict.insert "api-key" k).insert "q" q).insert "page" (pyStr p)).items = _
  rw [ins_api_key, ins_q, ins_page]
  rfl

theorem argsBegin_items (k q : String) (p : Nat) (bd : PyDate) :
    (NYTArticleRequest k q p (some bd) none none).items =
      [("q", q), ("begin_date", strftimeYYYYMMDD bd), ("api-key", k),
       ("page", pyStr p)] := by
  show ((((emptyDict.insert "api-key" k).insert "q" q).insert "page"
      (pyStr p)).insert "begin_date" (strftimeYYYYMMDD bd)).items = _
  rw [ins_api_key, ins_q, ins_page, ins_begin3]
  rfl

theorem argsEnd_items (k q : String) (p : Nat) (ed : PyDate) :
    (NYTArticleRequest k q p none (some ed) none).items =
      [("q", q), ("api-key", k), ("end_date", strftimeYYYYMMDD ed),
       ("page", pyStr p)] := by
  show ((((emptyDict.insert "api-key" k).insert "q" q).insert "page"
      (pyStr p)).insert "end_date" (strftimeYYYYMMDD ed)).items = _
  rw [ins_api_key, ins_q, ins_page, ins_end3]
  rfl

theorem argsAll_items (k q : String) (p : Nat) (bd ed : PyDate) (f : String)
    (hf : f ≠ "") :
    (NYTArticleRequest k q p (some bd) (some ed) (some f)).items =
      [("begin_date", strftimeYYYYMMDD bd), ("end_date", strftimeYYYYMMDD ed),
       ("api-key", k), ("q", q), ("fl", f), ("page", pyStr p)] := by
  simp only [NYTArticleRequest]
  rw [if_neg hf, ins_api_key, ins_q, ins_page, ins_fl, ins_begin4, ins_end5]
  rfl

theorem intercalate3 (a b c : String) :
    String.intercalate "&" [a, b, c] = a ++ "&" ++ b ++ "&" ++ c := by
  simp [String.intercalate, String.intercalate.go, String.append_assoc]

theorem intercalate4 (a b c d : String) :
    String.intercalate "&" [a, b, c, d] = a ++ "&" ++ b ++ "&" ++ c ++ "&" ++ d := by
  simp [String.intercalate, String.intercalate.go, String.append_assoc]

theorem intercalate6 (a b c d e f : String) :
    String.intercalate "&" [a, b, c, d, e, f] =
      a ++ "&" ++ b ++ "&" ++ c ++ "&" ++ d ++ "&" ++ e ++ "&" ++ f := by
  simp [String.intercalate, String.intercalate.go, String.append_assoc]

theorem render_none (k q : String) (p : Nat) :
    reprRequest (NYTArticleRequest k q p none none none) =
      NYT_API_URL ++ "?" ++ "q=" ++ q ++ "&api-key=" ++ k ++ "&page=" ++ pyStr p := by
  simp only [reprRequest, argsNone_items, List.map, intercalate3]
  simp [String.append_assoc]
  rfl

theorem render_begin (k q : String) (p : Nat) (bd : PyDate) :
    reprRequest (NYTArticleRequest k q p (some bd) none none) =
      NYT_API_URL ++ "?" ++ "q=" ++ q ++ "&begin_date=" ++ strftimeYYYYMMDD bd ++
        "&api-key=" ++ k ++ "&page=" ++ pyStr p := by
  simp only [reprRequest, argsBegin_items, List.map, intercalate4]
  simp [String.append_assoc]
  rfl

theorem render_end (k q : String) (p : Nat) (ed : PyDate) :
    reprRequest (NYTArticleRequest k q p none (some ed) none) =
      NYT_API_URL ++ "?" ++ "q=" ++ q ++ "&api-key=" ++ k ++
        "&end_date=" ++ strftimeYYYYMMDD ed ++ "&page=" ++ pyStr p := by
  simp only [reprRequest, argsEnd_items, List.map, intercalate4]
  simp [String.append_assoc]
  rfl

theorem render_all (k q : String) (p : Nat) (bd ed : PyDate) (f : String)
    (hf : f ≠ "") :
    reprRequest (NYTArticleRequest k q p (some bd) (some ed) (some f)) =
      NYT_API_URL ++ "?" ++ "begin_date=" ++ strftimeYYYYMMDD bd ++
        "&end_date=" ++ strftimeYYYYMMDD ed ++ "&api-key=" ++ k ++ "&q=" ++ q ++
        "&fl=" ++ f ++ "&page=" ++ pyStr p := by
  simp only [reprRequest, argsAll_items k q p bd ed f hf, List.map, intercalate6]
  simp [String.append_assoc]
  rfl

/-! ## Decimal rendering: length and digit lemmas -/

theorem natDigitsAux_zero (fuel : Nat) : natDigitsAux fuel 0 = [] := by
  cases fuel <;> rfl

theorem natDigitsAux_length (k : Nat) :
    ∀ fuel n, n ≤ fuel → 10 ^ k ≤ n → n < 10 ^ (k + 1) →
      (natDigitsAux fuel n).length = k + 1 := by
  induction k with
  | zero =>
    intro fuel n hfuel h1 h2
    have h1' : 1 ≤ n := by simpa using h1
    have h2' : n < 10 := by simpa using h2
    match fuel with
    | 0 => omega
    | fuel + 1 =>
      simp only [natDigitsAux, if_neg (by omega : ¬ n = 0)]
      have hz : n / 10 = 0 := Nat.div_eq_of_lt h2'
      simp [hz, natDigitsAux_zero]
  | succ k ih =>
    intro fuel n hfuel h1 h2
    have hp : 0 < 10 ^ (k + 1) := pow_pos (by norm_num) _
    match fuel with
    | 0 => omega
    | fuel + 1 =>
      simp only [natDigitsAux, if_neg (by omega : ¬ n = 0)]
      have hdivfuel : n / 10 ≤ fuel := by
        have : n / 10 < n := Nat.div_lt_self (by omega) (by norm_num)
        omega
      have hlow : 10 ^ k ≤ n / 10 := by
        rw [Nat.le_div_iff_mul_le (by norm_num : 0 < 10)]
        calc 10 ^ k * 10 = 10 ^ (k + 1) := by ring
          _ ≤ n := h1
      have hhigh : n / 10 < 10 ^ (k + 1) := by
        rw [Nat.div_lt_iff_lt_mul (by norm_num : 0 < 10)]
        calc n < 10 ^ (k + 1 + 1) := h2
          _ = 10 ^ (k + 1) * 10 := by ring
      simp [ih fuel (n / 10) hdivfuel hlow hhigh]

theorem pyStr_length (k n : Nat) (h1 : 10 ^ k ≤ n) (h2 : n < 10 ^ (k + 1)) :
    (pyStr n).length = k + 1 := by
  have hn : n ≠ 0 := by
    have : (1 : Nat) ≤ 10 ^ k := Nat.one_le_pow _ _ (by norm_num)
    omega
  simp only [pyStr, if_neg hn]
  show (natDigitsAux n n).reverse.length = k + 1
  rw [List.length_reverse]
  exact natDigitsAux_length k n n le_rfl h1 h2

theorem pad2_length (n : Nat) (h1 : 1 ≤ n) (h2 : n ≤ 31) :
    (pad2 n).length = 2 := by
  by_cases h : n < 10
  · simp only [pad2, if_pos h]
    rw [String.length_append]
    have : (pyStr n).length = 1 := pyStr_length 0 n (by simpa using h1) (by simpa using h)
    simp [this]
    rfl
  · simp only [pad2, if_neg h]
    exact pyStr_length 1 n (by simpa using Nat.le_of_not_lt h) (by norm_num; omega)

theorem strftime_length (d : PyDate) (h : validStrftimeDate d) :
    (strftimeYYYYMMDD d).length = 8 := by
  obtain ⟨hy1, hy2, hm1, hm2, hd1, hd2⟩ := h
  have hy : (pyStr d.year).length = 4 := by
    refine pyStr_length 3 d.year (by norm_num; omega) (by norm_num; omega)
  simp only [strftimeYYYYMMDD, String.length_append, hy,
    pad2_length d.month hm1 (by omega), pad2_length d.day hd1 hd2]

theorem digitChar_isDigit : ∀ d : Nat, d < 10 → (Nat.digitChar d).isDigit = true := by
  decide

theorem natDigitsAux_all_digits :
    ∀ fuel n, (natDigitsAux fuel n).all Char.isDigit = true := by
  intro fuel
  induction fuel with
  | zero => intro n; rfl
  | succ fuel ih =>
    intro n
    by_cases hn : n = 0
    · simp [natDigitsAux, hn]
    · simp only [natDigitsAux, if_neg hn, List.all_cons, Bool.and_eq_true]
      exact ⟨digitChar_isDigit _ (Nat.mod_lt _ (by norm_num)), ih _⟩

theorem pyStr_all_digits (n : Nat) : (pyStr n).data.all Char.isDigit = true := by
  by_cases hn : n = 0
  · simp [pyStr, hn]
  · simp only [pyStr, if_neg hn]
    show (natDigitsAux n n).reverse.all Char.isDigit = true
    rw [List.all_reverse]
    exact natDigitsAux_all_digits n n

theorem strftime_all_digits (d : PyDate) :
    (strftimeYYYYMMDD d).data.all Char.isDigit = true := by
  have hpad : ∀ n : Nat, (pad2 n).data.all Char.isDigit = true := by
    intro n
    by_cases h : n < 10
    · simp only [pad2, if_pos h, String.data_append, List.all_append, Bool.and_eq_true]
      exact ⟨by rfl, pyStr_all_digits n⟩
    · simpa only [pad2, if_neg h] using pyStr_all_digits n
  simp only [strftimeYYYYMMDD, String.data_append, List.all_append, Bool.and_eq_true]
  exact ⟨⟨pyStr_all_digits d.year, hpad d.month⟩, hpad d.day⟩

/-! ## Claims C7, C8, C10: the request descriptor -/

/-- Claim C7, counterexample: with only the required parameters, the URL
rendered by `NYTArticleRequest("KEY", "QUERY", 0)` is not the
insertion-order URL `<endpoint>?api-key=KEY&q=QUERY&page=0` claimed by the
spec (the Python 2 dict iterates in hash order: `q`, `api-key`, `page`). -/
theorem request_not_insertion_order :
    reprRequest (NYTArticleRequest "KEY" "QUERY" 0 none none none) ≠
      "https://api.nytimes.com/svc/search/v2/articlesearch.json?api-key=KEY&q=QUERY&page=0" := by
  rw [render_none]
  decide

/-- Claim C7 (amended): for all valid (apiKey, query, page) and optional
fields/beginDate/endDate, `NYTArticleRequest` renders deterministically to
`<searchEndpoint>?…` containing exactly the provided apiKey, query and page
and omitting `fl`/`begin_date`/`end_date` when not supplied — but the
parameters appear in the CPython 2.7 dict hash-table order, not in insertion
order: `q, api-key, page` when only the required parameters are present, and
`begin_date, end_date, api-key, q, fl, page` when all six are present (the
sixth key triggers the dict resize, reshuffling the slots). -/
theorem request_renders_hash_order :
    (∀ (k q : String) (p : Nat),
      reprRequest (NYTArticleRequest k q p none none none) =
        NYT_API_URL ++ "?" ++ "q=" ++ q ++ "&api-key=" ++ k ++ "&page=" ++ pyStr p)
  ∧ (∀ (k q : String) (p : Nat) (bd ed : PyDate) (f : String), f ≠ "" →
      reprRequest (NYTArticleRequest k q p (some bd) (some ed) (some f)) =
        NYT_API_URL ++ "?" ++ "begin_date=" ++ strftimeYYYYMMDD bd ++
          "&end_date=" ++ strftimeYYYYMMDD ed ++ "&api-key=" ++ k ++ "&q=" ++ q ++
          "&fl=" ++ f ++ "&page=" ++ pyStr p) :=
  ⟨render_none, fun k q p bd ed f hf => render_all k q p bd ed f hf⟩

/-- Claim C7 witness: the amended rendering at concrete inputs. -/
theorem request_renders_hash_order_witness :
    reprRequest (NYTArticleRequest "K" "Q" 2 (some ⟨2020, 1, 2⟩) (some ⟨2021, 3, 4⟩)
        (some "headline")) =
      NYT_API_URL ++ "?" ++ "begin_date=" ++ strftimeYYYYMMDD ⟨2020, 1, 2⟩ ++
        "&end_date=" ++ strftimeYYYYMMDD ⟨2021, 3, 4⟩ ++ "&api-key=" ++ "K" ++
        "&q=" ++ "Q" ++ "&fl=" ++ "headline" ++ "&page=" ++ pyStr 2 :=
  request_renders_hash_order.2 "K" "Q" 2 ⟨2020, 1, 2⟩ ⟨2021, 3, 4⟩ "headline" (by decide)

/-- Claim C8: a date supplied as beginDate or endDate appears in the
rendered request as `begin_date=`/`end_date=` followed by exactly
`strftimeYYYYMMDD` of the original date, an 8-character all-digit YYYYMMDD
string (for the dates Python 2's strftime accepts: years 1900–9999). -/
theorem date_param_roundtrip (k q : String) (p : Nat) (bd ed : PyDate)
    (hbd : validStrftimeDate bd) (hed : validStrftimeDate ed) :
    ((strftimeYYYYMMDD bd).length = 8
      ∧ (strftimeYYYYMMDD bd).data.all Char.isDigit = true
      ∧ ∃ pre post, reprRequest (NYTArticleRequest k q p (some bd) none none) =
          pre ++ ("begin_date=" ++ strftimeYYYYMMDD bd) ++ post)
  ∧ ((strftimeYYYYMMDD ed).length = 8
      ∧ (strftimeYYYYMMDD ed).data.all Char.isDigit = true
      ∧ ∃ pre post, reprRequest (NYTArticleRequest k q p none (some ed) none) =
          pre ++ ("end_date=" ++ strftimeYYYYMMDD ed) ++ post) := by
  refine ⟨⟨strftime_length bd hbd, strftime_all_digits bd, ?_⟩,
          ⟨strftime_length ed hed, strftime_all_digits ed, ?_⟩⟩
  · refine ⟨NYT_API_URL ++ "?" ++ "q=" ++ q ++ "&",
      "&api-key=" ++ k ++ "&page=" ++ pyStr p, ?_⟩
    rw [render_begin]
    simp [String.append_assoc]
    rfl
  · refine ⟨NYT_API_URL ++ "?" ++ "q=" ++ q ++ "&api-key=" ++ k ++ "&",
      "&page=" ++ pyStr p, ?_⟩
    rw [render_end]
    simp [String.append_assoc]
    rfl

/-- Claim C8 witness: the round trip at a concrete request and dates. -/
theorem date_param_roundtrip_witness :
    (strftimeYYYYMMDD ⟨2020, 1, 2⟩).length = 8
      ∧ (strftimeYYYYMMDD ⟨2020, 1, 2⟩).data.all Char.isDigit = true
      ∧ ∃ pre post, reprRequest (NYTArticleRequest "K" "Q" 0 (some ⟨2020, 1, 2⟩) none none) =
          pre ++ ("begin_date=" ++ strftimeYYYYMMDD ⟨2020, 1, 2⟩) ++ post :=
  (date_param_roundtrip "K" "Q" 0 ⟨2020, 1, 2⟩ ⟨2021, 12, 31⟩
    (by decide) (by decide)).1

/-- Claim C10: parameter values are embedded in the rendered URL verbatim —
no URL/percent-encoding anywhere.  The apiKey and query appear as exact
substrings, and a query containing space, `&` and `=` (here `"a b&c=d"`)
renders unescaped, so it alters the URL's parameter structure: the URL shows
3 `&`-separators and 4 `=`-signs for a request with only 3 parameters. -/
theorem request_values_unescaped :
    (∀ (k q : String) (p : Nat), ∃ pre post,
      reprRequest (NYTArticleRequest k q p none none none) = pre ++ ("q=" ++ q) ++ post)
  ∧ (∀ (k q : String) (p : Nat), ∃ pre post,
      reprRequest (NYTArticleRequest k q p none none none) = pre ++ ("api-key=" ++ k) ++ post)
  ∧ reprRequest (NYTArticleRequest "KEY" "a b&c=d" 0 none none none) =
      "https://api.nytimes.com/svc/search/v2/articlesearch.json?q=a b&c=d&api-key=KEY&page=0"
  ∧ (reprRequest (NYTArticleRequest "KEY" "a b&c=d" 0 none none none)).data.count '&' = 3
  ∧ (reprRequest (NYTArticleRequest "KEY" "a b&c=d" 0 none none none)).data.count '=' = 4 := by
  refine ⟨?_, ?_, ?_, ?_, ?_⟩
  · intro k q p
    refine ⟨NYT_API_URL ++ "?", "&api-key=" ++ k ++ "&page=" ++ pyStr p, ?_⟩
    rw [render_none]
    simp [String.append_assoc]
    rfl
  · intro k q p
    refine ⟨NYT_API_URL ++ "?" ++ "q=" ++ q ++ "&", "&page=" ++ pyStr p, ?_⟩
    rw [render_none]
    simp [String.append_assoc]
    rfl
  · rw [render_none]
    rfl
  · rw [render_none]
    rfl
  · rw [render_none]
    rfl

/-! ## Claims C3–C6: `parseNYTResponse` -/

theorem isOK_false_of_ne (st : Json) (h : st ≠ Json.str "OK") : st.isOK = false := by
  cases st <;> simp_all [Json.isOK]

/-- Claim C3: for every decoded response whose status field is present and
not `"OK"`, `parseNYTResponse` returns the empty list and no error,
regardless of everything else in the response (docs included). -/
theorem parse_non_ok_empty (fetch : String → Option Html) (content st : Json)
    (h : content.getField "status" = .ok st) (hne : st ≠ Json.str "OK") :
    parseNYTResponse fetch content = .ok [] := by
  simp [parseNYTResponse, h, isOK_false_of_ne st hne]

/-- Claim C3 witness: a `"status":"ERROR"` response with a well-formed doc
still yields the empty list. -/
theorem parse_non_ok_empty_witness :
    parseNYTResponse (fun _ => some [])
      (Json.obj [("status", Json.str "ERROR"),
        ("response", Json.obj [("docs",
          Json.arr [mkDoc (Json.str "T") "http://x" "2020-01-02T10:00:00Z"])])]) =
      .ok [] :=
  parse_non_ok_empty (fun _ => some []) _ (Json.str "ERROR") rfl
    (fun hh => absurd (Json.str.inj hh) (by decide))

/-- Claim C4: in an `"OK"` response, each document's headline is taken from
`headline.main`, the url from `web_url`, and the date by splitting
`pub_date` at `'T'` and parsing the first part as YYYY-MM-DD; the spec's
sample response yields exactly one record (`"T"`, `"http://x"`, 2020-01-02). -/
theorem parse_ok_extracts :
    (∀ (fetch : String → Option Html) (hl : Json) (u s : String) (d : PyDate)
        (page : Html), fetch u = some page →
        strptimeYMD ((pySplit 'T' s).headD "") = .ok d →
        parseNYTResponse fetch (mkOKResponse [mkDoc hl u s]) =
          .ok [⟨hl, u, d, scrapeStoryBody page⟩])
  ∧ parseNYTResponse (fun _ => some []) sampleResponse =
      .ok [⟨Json.str "T", "http://x", ⟨2020, 1, 2⟩, ""⟩] := by
  refine ⟨?_, rfl⟩
  intro fetch hl u s d page hf hd
  have key : parseNYTResponse fetch (mkOKResponse [mkDoc hl u s]) =
      Except.bind (strptimeYMD ((pySplit 'T' s).headD ""))
        (fun pub_date =>
          match fetch u with
          | none => Except.ok []
          | some pg => Except.ok [(⟨hl, u, pub_date, scrapeStoryBody pg⟩ : Story)]) := rfl
  rw [key, hd]
  show (match fetch u with
        | none => Except.ok []
        | some pg => Except.ok [(⟨hl, u, d, scrapeStoryBody pg⟩ : Story)]) = _
  rw [hf]

/-- Claim C4 witness: the extraction rule applied at the sample document. -/
theorem parse_ok_extracts_witness :
    parseNYTResponse (fun _ => some helloHtml)
      (mkOKResponse [mkDoc (Json.str "T") "http://x" "2020-01-02T10:00:00Z"]) =
      .ok [⟨Json.str "T", "http://x", ⟨2020, 1, 2⟩, scrapeStoryBody helloHtml⟩] :=
  parse_ok_extracts.1 (fun _ => some helloHtml) (Json.str "T") "http://x"
    "2020-01-02T10:00:00Z" ⟨2020, 1, 2⟩ helloHtml rfl rfl

theorem except_bind_error {ε α β : Type} (e : ε) (f : α → Except ε β) :
    (Except.error e >>= f) = Except.error e := rfl

theorem except_bind_ok {ε α β : Type} (a : α) (f : α → Except ε β) :
    (Except.ok a >>= f : Except ε β) = f a := rfl

/-- Processing a document that is missing one of the expected fields raises
before the article fetch. -/
theorem processDocs_head_error (fetch : String → Option Html) (d : Json)
    (rest : List Json) (acc : List Story) (hmiss : docMissingNYTField d = true) :
    ∃ e, processDocs fetch (d :: rest) acc = .error e := by
  cases h1 : d.getField "headline" with
  | error e => exact ⟨e, by simp [processDocs, h1, except_bind_error]⟩
  | ok hl =>
    cases h2 : hl.getField "main" with
    | error e =>
      exact ⟨e, by simp [processDocs, h1, h2, except_bind_error, except_bind_ok]⟩
    | ok headline =>
      cases h3 : d.getField "web_url" with
      | error e =>
        exact ⟨e, by simp [processDocs, h1, h2, h3, except_bind_error, except_bind_ok]⟩
      | ok webUrlJ =>
        cases webUrlJ with
        | str u =>
          cases h4 : d.getField "pub_date" with
          | error e =>
            exact ⟨e, by
              simp [processDocs, h1, h2, h3, h4, except_bind_error, except_bind_ok]⟩
          | ok pubJ =>
            exfalso
            simp [docMissingNYTField, h1, h2, h3, h4, except_bind_ok,
              Except.isOk, Except.toBool] at hmiss
        | num n =>
          exact ⟨"TypeError: web_url is not a string",
            by simp [processDocs, h1, h2, h3, except_bind_ok]⟩
        | bool b =>
          exact ⟨"TypeError: web_url is not a string",
            by simp [processDocs, h1, h2, h3, except_bind_ok]⟩
        | null =>
          exact ⟨"TypeError: web_url is not a string",
            by simp [processDocs, h1, h2, h3, except_bind_ok]⟩
        | obj kvs =>
          exact ⟨"TypeError: web_url is not a string",
            by simp [processDocs, h1, h2, h3, except_bind_ok]⟩
        | arr xs =>
          exact ⟨"TypeError: web_url is not a string",
            by simp [processDocs, h1, h2, h3, except_bind_ok]⟩

/-- Processing one document either raises or continues with the rest. -/
theorem processDocs_cons_step (fetch : String → Option Html) (d : Json)
    (rest : List Json) (acc : List Story) :
    (∃ e, processDocs fetch (d :: rest) acc = .error e) ∨
    (∃ acc2, processDocs fetch (d :: rest) acc = processDocs fetch rest acc2) := by
  cases h1 : d.getField "headline" with
  | error e => exact .inl ⟨e, by simp [processDocs, h1, except_bind_error]⟩
  | ok hl =>
    cases h2 : hl.getField "main" with
    | error e =>
      exact .inl ⟨e, by simp [processDocs, h1, h2, except_bind_error, except_bind_ok]⟩
    | ok headline =>
      cases h3 : d.getField "web_url" with
      | error e =>
        exact .inl ⟨e, by simp [processDocs, h1, h2, h3, except_bind_error, except_bind_ok]⟩
      | ok webUrlJ =>
        cases webUrlJ with
        | str u =>
          cases h4 : d.getField "pub_date" with
          | error e =>
            exact .inl ⟨e, by
              simp [processDocs, h1, h2, h3, h4, except_bind_error, except_bind_ok]⟩
          | ok pubJ =>
            cases pubJ with
            | str s =>
              cases h5 : strptimeYMD ((pySplit 'T' s).headD "") with
              | error e =>
                exact .inl ⟨e, by
                  simp only [processDocs, h1, h2, h3, h4, h5,
                    except_bind_error, except_bind_ok]⟩
              | ok pd =>
                cases h6 : fetch u with
                | none =>
                  exact .inr ⟨acc, by
                    simp only [processDocs, h1, h2, h3, h4, h5, h6,
                      except_bind_error, except_bind_ok]⟩
                | some page =>
                  exact .inr ⟨acc ++ [(⟨headline, u, pd, scrapeStoryBody page⟩ : Story)], by
                    simp only [processDocs, h1, h2, h3, h4, h5, h6,
                      except_bind_error, except_bind_ok]⟩
            | num n =>
              exact .inl ⟨"AttributeError: pub_date has no split",
                by simp [processDocs, h1, h2, h3, h4, except_bind_ok]⟩
            | bool b =>
              exact .inl ⟨"AttributeError: pub_date has no split",
                by simp [processDocs, h1, h2, h3, h4, except_bind_ok]⟩
            | null =>
              exact .inl ⟨"AttributeError: pub_date has no split",
                by simp [processDocs, h1, h2, h3, h4, except_bind_ok]⟩
            | obj kvs =>
              exact .inl ⟨"AttributeError: pub_date has no split",
                by simp [processDocs, h1, h2, h3, h4, except_bind_ok]⟩
            | arr xs =>
              exact .inl ⟨"AttributeError: pub_date has no split",
                by simp [processDocs, h1, h2, h3, h4, except_bind_ok]⟩
        | num n =>
          exact .inl ⟨"TypeError: web_url is not a string",
            by simp [processDocs, h1, h2, h3, except_bind_ok]⟩
        | bool b =>
          exact .inl ⟨"TypeError: web_url is not a string",
            by simp [processDocs, h1, h2, h3, except_bind_ok]⟩
        | null =>
          exact .inl ⟨"TypeError: web_url is not a string",
            by simp [processDocs, h1, h2, h3, except_bind_ok]⟩
        | obj kvs =>
          exact .inl ⟨"TypeError: web_url is not a string",
            by simp [processDocs, h1, h2, h3, except_bind_ok]⟩
        | arr xs =>
          exact .inl ⟨"TypeError: web_url is not a string",
            by simp [processDocs, h1, h2, h3, except_bind_ok]⟩

theorem processDocs_error_of_mem (fetch : String → Option Html) (docs : List Json)
    (doc : Json) (hmem : doc ∈ docs) (hmiss : docMissingNYTField doc = true) :
    ∀ acc, ∃ e, processDocs fetch docs acc = .error e := by
  induction docs with
  | nil => cases hmem
  | cons d rest ih =>
    intro acc
    rcases List.mem_cons.mp hmem with heq | hrest
    · subst heq
      exact processDocs_head_error fetch doc rest acc hmiss
    · rcases processDocs_cons_step fetch d rest acc with ⟨e, he⟩ | ⟨acc2, hstep⟩
      · exact ⟨e, he⟩
      · rw [hstep]
        exact ih hrest acc2

/-- Claim C5: an `"OK"` response containing a document missing any of
`headline.main`, `web_url`, `pub_date` makes `parseNYTResponse` propagate a
hard failure (an uncaught exception) — there is no per-document recovery. -/
theorem parse_missing_field_fatal (fetch : String → Option Html) (docs : List Json)
    (doc : Json) (hmem : doc ∈ docs) (hmiss : docMissingNYTField doc = true) :
    ∃ e, parseNYTResponse fetch (mkOKResponse docs) = .error e := by
  have hred : parseNYTResponse fetch (mkOKResponse docs) = processDocs fetch docs [] := rfl
  rw [hred]
  exact processDocs_error_of_mem fetch docs doc hmem hmiss []

/-- Claim C5 witness: a doc with no `pub_date` aborts the whole parse even
though a well-formed doc precedes it. -/
theorem parse_missing_field_fatal_witness :
    ∃ e, parseNYTResponse (fun _ => some [])
      (mkOKResponse [mkDoc (Json.str "A") "http://a" "2020-01-02T10:00:00Z",
        Json.obj [("headline", Json.obj [("main", Json.str "B")]),
                  ("web_url", Json.str "http://b")]]) = .error e :=
  parse_missing_field_fatal (fun _ => some []) _
    (Json.obj [("headline", Json.obj [("main", Json.str "B")]),
               ("web_url", Json.str "http://b")])
    (by simp) rfl

/-- Claim C6: the scraped content is the concatenation, in document order
with no separator, of the text of the `p` elements whose class attribute is
exactly `story-body-text story-content`; zero matches give `""` (no error);
two matching paragraphs `"Hello "` and `"world."` give `"Hello world."`,
also end to end through `parseNYTResponse`. -/
theorem scrape_concatenates :
    (∀ page : Html,
      scrapeStoryBody page = String.join ((findStoryPieces page).map HtmlElem.text))
  ∧ scrapeStoryBody helloHtml = "Hello world."
  ∧ scrapeStoryBody noMatchHtml = ""
  ∧ parseNYTResponse (fun _ => some helloHtml) sampleResponse =
      .ok [⟨Json.str "T", "http://x", ⟨2020, 1, 2⟩, "Hello world."⟩] := by
  refine ⟨?_, rfl, rfl, rfl⟩
  intro page
  simp [scrapeStoryBody, String.join, List.foldl_map]

/-! ## Claims C9, C2, C1: the pagination loop -/

theorem parse_ok_ten :
    parseNYTResponse (fun _ => some []) okTenResponse = .ok tenStories := rfl

/-- A transport failure on the search fetch: print, `continue`. -/
theorem runAux_step_none (sf : String → Option Json) (af : String → Option Html)
    (k q : String) (bd ed : Option PyDate) (f : Option String) (durs : Nat → Nat)
    (fuel i t : Nat) (acc : List Story) (log : List (Nat × Nat))
    (h : sf (reprRequest (NYTArticleRequest k q i bd ed f)) = none) :
    runAux sf af k q bd ed f durs (fuel + 1) i t acc log =
      runAux sf af k q bd ed f durs fuel (i + 1)
        ((if i % API_MAX_CALLS_PER_SEC = 0 ∧ 0 < i then pollWait t else t) + durs i) acc
        (log ++ [(i, if i % API_MAX_CALLS_PER_SEC = 0 ∧ 0 < i then pollWait t else t)]) := by
  simp only [runAux, h]

/-- A successful fetch whose page parses cleanly: append its stories. -/
theorem runAux_step_ok (sf : String → Option Json) (af : String → Option Html)
    (k q : String) (bd ed : Option PyDate) (f : Option String) (durs : Nat → Nat)
    (fuel i t : Nat) (acc : List Story) (log : List (Nat × Nat))
    (c : Json) (st : List Story)
    (h : sf (reprRequest (NYTArticleRequest k q i bd ed f)) = some c)
    (hp : parseNYTResponse af c = .ok st) :
    runAux sf af k q bd ed f durs (fuel + 1) i t acc log =
      runAux sf af k q bd ed f durs fuel (i + 1)
        ((if i % API_MAX_CALLS_PER_SEC = 0 ∧ 0 < i then pollWait t else t) + durs i)
        (acc ++ st)
        (log ++ [(i, if i % API_MAX_CALLS_PER_SEC = 0 ∧ 0 < i then pollWait t else t)]) := by
  simp only [runAux, h, hp]

/-- Claim C9: a transport failure on a page's search fetch (and on an
article's page fetch) is skipped with no retry while the pipeline continues:
in a 2-page run whose page 0 yields ten articles and whose page 1 fetch
fails, the result is exactly the ten stories of page 0; and a page whose
fourth article's fetch fails yields exactly the other nine stories. -/
theorem transport_failures_skipped :
    (∀ (sf : String → Option Json) (durs : Nat → Nat) (k q : String),
      sf (reprRequest (NYTArticleRequest k q 0 none none none)) = some okTenResponse →
      sf (reprRequest (NYTArticleRequest k q 1 none none none)) = none →
      (issueNYTRequests sf (fun _ => some []) k q 2 none none none durs).result =
        .ok tenStories)
  ∧ parseNYTResponse fetchFail3 okTenResponse =
      .ok (((List.range 10).filter (fun j => j ≠ 3)).map simpleStory) := by
  refine ⟨?_, rfl⟩
  intro sf durs k q h0 h1
  show (runAux sf (fun _ => some []) k q none none none durs (1 + 1) 0 0 [] []).result = _
  rw [runAux_step_ok sf (fun _ => some []) k q none none none durs 1 0 0 [] []
      okTenResponse tenStories h0 parse_ok_ten]
  rw [show (1 : Nat) = 0 + 1 from rfl]
  rw [runAux_step_none sf (fun _ => some []) k q none none none durs 0 (0 + 1) _ _ _ h1]
  simp [runAux]

/-- Claim C9 witness: the 2-page scenario at a concrete search oracle. -/
theorem transport_failures_skipped_witness :
    (issueNYTRequests
      (fun url => if url = reprRequest (NYTArticleRequest "K" "Q" 0 none none none)
                  then some okTenResponse else none)
      (fun _ => some []) "K" "Q" 2 none none none (fun _ => 0)).result =
      .ok tenStories :=
  transport_failures_skipped.1 _ (fun _ => 0) "K" "Q" (by simp)
    (by
      show (if reprRequest (NYTArticleRequest "K" "Q" 1 none none none) =
              reprRequest (NYTArticleRequest "K" "Q" 0 none none none)
            then some okTenResponse else none) = none
      rw [if_neg]
      intro hh
      rw [render_none, render_none] at hh
      exact absurd hh (by decide))

/-- Under an oracle whose fetched pages always parse cleanly, the loop
attempts every page index it was given fuel for, and ends without error. -/
theorem runAux_attempts (sf : String → Option Json) (af : String → Option Html)
    (k q : String) (bd ed : Option PyDate) (f : Option String) (durs : Nat → Nat)
    (hok : ∀ url c, sf url = some c → ∃ st, parseNYTResponse af c = .ok st) :
    ∀ fuel i t acc log,
      (runAux sf af k q bd ed f durs fuel i t acc log).attempts.map Prod.fst =
        log.map Prod.fst ++ List.range' i fuel
      ∧ ∃ st, (runAux sf af k q bd ed f durs fuel i t acc log).result = .ok st := by
  intro fuel
  induction fuel with
  | zero =>
    intro i t acc log
    exact ⟨by simp [runAux], ⟨acc, rfl⟩⟩
  | succ fuel ih =>
    intro i t acc log
    cases hsf : sf (reprRequest (NYTArticleRequest k q i bd ed f)) with
    | none =>
      rw [runAux_step_none sf af k q bd ed f durs fuel i t acc log hsf]
      obtain ⟨hatt, hres⟩ := ih (i + 1) _ acc _
      refine ⟨?_, hres⟩
      rw [hatt]
      simp [List.range'_succ]
    | some c =>
      obtain ⟨st, hst⟩ := hok _ c hsf
      rw [runAux_step_ok sf af k q bd ed f durs fuel i t acc log c st hsf hst]
      obtain ⟨hatt, hres⟩ := ih (i + 1) _ (acc ++ st) _
      refine ⟨?_, hres⟩
      rw [hatt]
      simp [List.range'_succ]

/-- Claim C2: for `num_pages` above the daily cap (100), the loop performs
exactly 100 page-fetch attempts, at page indices 0..99, and the truncation
itself signals no error: the run still ends with an `ok` result. -/
theorem pagination_capped (sf : String → Option Json) (af : String → Option Html)
    (k q : String) (bd ed : Option PyDate) (f : Option String) (durs : Nat → Nat)
    (np : Nat) (hnp : 100 < np)
    (hok : ∀ url c, sf url = some c → ∃ st, parseNYTResponse af c = .ok st) :
    (issueNYTRequests sf af k q np bd ed f durs).attempts.map Prod.fst = List.range 100
    ∧ ∃ st, (issueNYTRequests sf af k q np bd ed f durs).result = .ok st := by
  have hcap : issueNYTRequests sf af k q np bd ed f durs =
      runAux sf af k q bd ed f durs 100 0 0 [] [] := by
    simp only [issueNYTRequests, API_MAX_CALLS_PER_DAY]
    rw [if_pos hnp]
  rw [hcap]
  obtain ⟨hatt, hres⟩ := runAux_attempts sf af k q bd ed f durs hok 100 0 0 [] []
  refine ⟨?_, hres⟩
  rw [hatt]
  simp [List.range_eq_range']

/-- Claim C2 witness: `num_pages = 500` yields exactly the 100 attempts
0..99 (here with every fetch failing as transport errors, which still counts
as an attempt and keeps the run error-free). -/
theorem pagination_capped_witness :
    (issueNYTRequests (fun _ => none) (fun _ => some []) "K" "Q" 500 none none none
        (fun _ => 0)).attempts.map Prod.fst = List.range 100
    ∧ ∃ st, (issueNYTRequests (fun _ => none) (fun _ => some []) "K" "Q" 500 none none
        none (fun _ => 0)).result = .ok st :=
  pagination_capped (fun _ => none) (fun _ => some []) "K" "Q" none none none
    (fun _ => 0) 500 (by decide) (fun _ c h => nomatch h)

/-- Claim C1, evaluated at the failing input: with instantaneous fetches
(`durs = 0`) and 11 pages, the pacing check blocks pages 5–9 only until one
second (10 ticks) after the loop-entry epoch, and at page 10 the check
passes immediately because `req_start` is never reset — so requests 5..10,
six of them, are all issued at tick 10, i.e. six requests inside the rolling
one-second window [10, 20) ticks, exceeding `API_MAX_CALLS_PER_SEC = 5`.
The claimed invariant "no more than 5 requests in any rolling one-second
window" is false of the code. -/
theorem rate_limit_window_violated :
    (issueNYTRequests (fun _ => none) (fun _ => some []) "K" "Q" 11 none none none
        (fun _ => 0)).attempts.map Prod.snd = [0, 0, 0, 0, 0, 10, 10, 10, 10, 10, 10]
  ∧ (((issueNYTRequests (fun _ => none) (fun _ => some []) "K" "Q" 11 none none none
        (fun _ => 0)).attempts.map Prod.snd).countP
      (fun x => decide (10 ≤ x) && decide (x < 20))) = 6
  ∧ API_MAX_CALLS_PER_SEC <
      (((issueNYTRequests (fun _ => none) (fun _ => some []) "K" "Q" 11 none none none
        (fun _ => 0)).attempts.map Prod.snd).countP
      (fun x => decide (10 ≤ x) && decide (x < 20))) :=
  ⟨by decide, by decide, by decide⟩

end NYTScraper
